import Mathlib

/-!
Verification of the generated upcall index table
`src/com.oracle.truffle.r.native/fficall/src/common/rffi_upcallsindex.h`
and of the Slot Registry / Dispatch Gateway contracts specified for it.

The header is pure data: a sequence of `#define NAME SLOT` lines produced
by successive runs of a code generator.  We embed each define as a
`(String × Nat)` pair, in file order, split into the three generation
passes visible in the file: lines 5-198 (`pass1`), lines 199-216
(`midSection`), and lines 217-392 (`pass3`), followed by the
`UPCALLS_TABLE_SIZE` constant from line 394.
-/

set_option maxRecDepth 40000

namespace Upcalls

def pass1 : List (String × Nat) := [
  ("ATTRIB_x", 0),
  ("BODY_x", 1),
  ("CAAR_x", 2),
  ("CAD4R_x", 3),
  ("CADDDR_x", 4),
  ("CADDR_x", 5),
  ("CADR_x", 6),
  ("CAR_x", 7),
  ("CDAR_x", 8),
  ("CDDDR_x", 9),
  ("CDDR_x", 10),
  ("CDR_x", 11),
  ("CLOENV_x", 12),
  ("COMPLEX_x", 13),
  ("DUPLICATE_ATTRIB_x", 14),
  ("ENCLOS_x", 15),
  ("FASTR_getConnectionChar_x", 16),
  ("FORMALS_x", 17),
  ("GetRNGstate_x", 18),
  ("INTEGER_x", 19),
  ("IS_S4_OBJECT_x", 20),
  ("LENGTH_x", 21),
  ("LOGICAL_x", 22),
  ("NAMED_x", 23),
  ("OBJECT_x", 24),
  ("PRCODE_x", 25),
  ("PRENV_x", 26),
  ("PRINTNAME_x", 27),
  ("PRSEEN_x", 28),
  ("PRVALUE_x", 29),
  ("PutRNGstate_x", 30),
  ("RAW_x", 31),
  ("RDEBUG_x", 32),
  ("REAL_x", 33),
  ("RSTEP_x", 34),
  ("R_BaseEnv_x", 35),
  ("R_BaseNamespace_x", 36),
  ("R_BindingIsLocked_x", 37),
  ("R_CHAR_x", 38),
  ("R_CleanUp_x", 39),
  ("R_ExternalPtrAddr_x", 40),
  ("R_ExternalPtrProtected_x", 41),
  ("R_ExternalPtrTag_x", 42),
  ("R_FindNamespace_x", 43),
  ("R_GetConnection_x", 44),
  ("R_GlobalContext_x", 45),
  ("R_GlobalEnv_x", 46),
  ("R_Home_x", 47),
  ("R_HomeDir_x", 48),
  ("R_Interactive_x", 49),
  ("R_LockBinding_x", 50),
  ("R_MakeExternalPtr_x", 51),
  ("R_MethodsNamespace_x", 52),
  ("R_NamespaceRegistry_x", 53),
  ("R_NewHashedEnv_x", 54),
  ("R_ParseVector_x", 55),
  ("R_PreserveObject_x", 56),
  ("R_PromiseExpr_x", 57),
  ("R_ProtectWithIndex_x", 58),
  ("R_ReadConnection_x", 59),
  ("R_ReleaseObject_x", 60),
  ("R_Reprotect_x", 61),
  ("R_SetExternalPtrAddr_x", 62),
  ("R_SetExternalPtrProtected_x", 63),
  ("R_SetExternalPtrTag_x", 64),
  ("R_TempDir_x", 65),
  ("R_ToplevelExec_x", 66),
  ("R_WriteConnection_x", 67),
  ("R_alloc_x", 68),
  ("R_compute_identical_x", 69),
  ("R_do_MAKE_CLASS_x", 70),
  ("R_do_new_object_x", 71),
  ("R_do_slot_x", 72),
  ("R_do_slot_assign_x", 73),
  ("R_getClassDef_x", 74),
  ("R_getContextCall_x", 75),
  ("R_getContextEnv_x", 76),
  ("R_getContextFun_x", 77),
  ("R_getContextSrcRef_x", 78),
  ("R_getGlobalFunctionContext_x", 79),
  ("R_getParentFunctionContext_x", 80),
  ("R_has_slot_x", 81),
  ("R_insideBrowser_x", 82),
  ("R_isEqual_x", 83),
  ("R_isGlobal_x", 84),
  ("R_lsInternal3_x", 85),
  ("R_new_custom_connection_x", 86),
  ("R_tryEval_x", 87),
  ("R_unLockBinding_x", 88),
  ("Rf_GetOption1_x", 89),
  ("Rf_NonNullStringMatch_x", 90),
  ("Rf_PairToVectorList_x", 91),
  ("Rf_PrintValue_x", 92),
  ("Rf_ScalarDouble_x", 93),
  ("Rf_ScalarInteger_x", 94),
  ("Rf_ScalarLogical_x", 95),
  ("Rf_ScalarString_x", 96),
  ("Rf_VectorToPairList_x", 97),
  ("Rf_allocArray_x", 98),
  ("Rf_allocMatrix_x", 99),
  ("Rf_allocVector_x", 100),
  ("Rf_any_duplicated_x", 101),
  ("Rf_any_duplicated3_x", 102),
  ("Rf_asChar_x", 103),
  ("Rf_asCharacterFactor_x", 104),
  ("Rf_asInteger_x", 105),
  ("Rf_asLogical_x", 106),
  ("Rf_asReal_x", 107),
  ("Rf_classgets_x", 108),
  ("Rf_coerceVector_x", 109),
  ("Rf_cons_x", 110),
  ("Rf_copyListMatrix_x", 111),
  ("Rf_copyMatrix_x", 112),
  ("Rf_copyMostAttrib_x", 113),
  ("Rf_dchisq_x", 114),
  ("Rf_defineVar_x", 115),
  ("Rf_dnchisq_x", 116),
  ("Rf_dunif_x", 117),
  ("Rf_duplicate_x", 118),
  ("Rf_error_x", 119),
  ("Rf_errorcall_x", 120),
  ("Rf_eval_x", 121),
  ("Rf_findFun_x", 122),
  ("Rf_findVar_x", 123),
  ("Rf_findVarInFrame_x", 124),
  ("Rf_findVarInFrame3_x", 125),
  ("Rf_getAttrib_x", 126),
  ("Rf_gsetVar_x", 127),
  ("Rf_inherits_x", 128),
  ("Rf_install_x", 129),
  ("Rf_installChar_x", 130),
  ("Rf_isNull_x", 131),
  ("Rf_isString_x", 132),
  ("Rf_lengthgets_x", 133),
  ("Rf_match_x", 134),
  ("Rf_mkCharLenCE_x", 135),
  ("Rf_namesgets_x", 136),
  ("Rf_ncols_x", 137),
  ("Rf_nrows_x", 138),
  ("Rf_pchisq_x", 139),
  ("Rf_pnchisq_x", 140),
  ("Rf_protect_x", 141),
  ("Rf_punif_x", 142),
  ("Rf_qchisq_x", 143),
  ("Rf_qnchisq_x", 144),
  ("Rf_qunif_x", 145),
  ("Rf_rchisq_x", 146),
  ("Rf_rnchisq_x", 147),
  ("Rf_runif_x", 148),
  ("Rf_setAttrib_x", 149),
  ("Rf_str2type_x", 150),
  ("Rf_unprotect_x", 151),
  ("Rf_unprotect_ptr_x", 152),
  ("Rf_warning_x", 153),
  ("Rf_warningcall_x", 154),
  ("Rprintf_x", 155),
  ("SETCAD4R_x", 156),
  ("SETCADDDR_x", 157),
  ("SETCADDR_x", 158),
  ("SETCADR_x", 159),
  ("SETCAR_x", 160),
  ("SETCDR_x", 161),
  ("SET_BODY_x", 162),
  ("SET_CLOENV_x", 163),
  ("SET_FORMALS_x", 164),
  ("SET_NAMED_FASTR_x", 165),
  ("SET_RDEBUG_x", 166),
  ("SET_RSTEP_x", 167),
  ("SET_S4_OBJECT_x", 168),
  ("SET_STRING_ELT_x", 169),
  ("SET_SYMVALUE_x", 170),
  ("SET_TAG_x", 171),
  ("SET_TYPEOF_FASTR_x", 172),
  ("SET_VECTOR_ELT_x", 173),
  ("STRING_ELT_x", 174),
  ("SYMVALUE_x", 175),
  ("TAG_x", 176),
  ("TYPEOF_x", 177),
  ("UNSET_S4_OBJECT_x", 178),
  ("VECTOR_ELT_x", 179),
  ("forceSymbols_x", 180),
  ("getCCallable_x", 181),
  ("getConnectionClassString_x", 182),
  ("getEmbeddingDLLInfo_x", 183),
  ("getOpenModeString_x", 184),
  ("getSummaryDescription_x", 185),
  ("isSeekable_x", 186),
  ("octsize_x", 187),
  ("registerCCallable_x", 188),
  ("registerRoutines_x", 189),
  ("restoreHandlerStacks_x", 190),
  ("setDotSymbolValues_x", 191),
  ("unif_rand_x", 192),
  ("useDynamicSymbols_x", 193)
]

def midSection : List (String × Nat) := [
  ("Rf_any_duplicated3_x", 102),
  ("Rf_asChar_x", 103),
  ("Rf_asCharacterFactor_x", 104),
  ("Rf_asInteger_x", 105),
  ("Rf_asLogical_x", 106),
  ("Rf_asReal_x", 107),
  ("Rf_classgets_x", 108),
  ("Rf_coerceVector_x", 109),
  ("Rf_cons_x", 110),
  ("Rf_copyListMatrix_x", 111),
  ("isSeekable_x", 186),
  ("octsize_x", 187),
  ("registerCCallable_x", 188),
  ("registerRoutines_x", 189),
  ("restoreHandlerStacks_x", 190),
  ("setDotSymbolValues_x", 191),
  ("unif_rand_x", 192),
  ("useDynamicSymbols_x", 193)
]

def pass3 : List (String × Nat) := [
  ("Rf_asChar_x", 102),
  ("Rf_asCharacterFactor_x", 103),
  ("Rf_asInteger_x", 104),
  ("Rf_asLogical_x", 105),
  ("Rf_asReal_x", 106),
  ("Rf_classgets_x", 107),
  ("Rf_coerceVector_x", 108),
  ("Rf_cons_x", 109),
  ("Rf_copyListMatrix_x", 110),
  ("Rf_copyMatrix_x", 111),
  ("Rf_copyMostAttrib_x", 112),
  ("Rf_dbeta_x", 113),
  ("Rf_dbinom_x", 114),
  ("Rf_dcauchy_x", 115),
  ("Rf_dchisq_x", 116),
  ("Rf_defineVar_x", 117),
  ("Rf_dexp_x", 118),
  ("Rf_df_x", 119),
  ("Rf_dgamma_x", 120),
  ("Rf_dgeom_x", 121),
  ("Rf_dhyper_x", 122),
  ("Rf_dlnorm_x", 123),
  ("Rf_dlogis_x", 124),
  ("Rf_dnbeta_x", 125),
  ("Rf_dnbinom_x", 126),
  ("Rf_dnbinom_mu_x", 127),
  ("Rf_dnchisq_x", 128),
  ("Rf_dnf_x", 129),
  ("Rf_dnorm_x", 130),
  ("Rf_dnt_x", 131),
  ("Rf_dpois_x", 132),
  ("Rf_dsignrank_x", 133),
  ("Rf_dt_x", 134),
  ("Rf_dunif_x", 135),
  ("Rf_duplicate_x", 136),
  ("Rf_dweibull_x", 137),
  ("Rf_dwilcox_x", 138),
  ("Rf_error_x", 139),
  ("Rf_errorcall_x", 140),
  ("Rf_eval_x", 141),
  ("Rf_findFun_x", 142),
  ("Rf_findVar_x", 143),
  ("Rf_findVarInFrame_x", 144),
  ("Rf_findVarInFrame3_x", 145),
  ("Rf_ftrunc_x", 146),
  ("Rf_getAttrib_x", 147),
  ("Rf_gsetVar_x", 148),
  ("Rf_inherits_x", 149),
  ("Rf_install_x", 150),
  ("Rf_installChar_x", 151),
  ("Rf_isNull_x", 152),
  ("Rf_isString_x", 153),
  ("Rf_lengthgets_x", 154),
  ("Rf_match_x", 155),
  ("Rf_mkCharLenCE_x", 156),
  ("Rf_namesgets_x", 157),
  ("Rf_ncols_x", 158),
  ("Rf_nrows_x", 159),
  ("Rf_pbeta_x", 160),
  ("Rf_pbinom_x", 161),
  ("Rf_pcauchy_x", 162),
  ("Rf_pchisq_x", 163),
  ("Rf_pexp_x", 164),
  ("Rf_pf_x", 165),
  ("Rf_pgamma_x", 166),
  ("Rf_pgeom_x", 167),
  ("Rf_phyper_x", 168),
  ("Rf_plnorm_x", 169),
  ("Rf_plogis_x", 170),
  ("Rf_pnbeta_x", 171),
  ("Rf_pnbinom_x", 172),
  ("Rf_pnbinom_mu_x", 173),
  ("Rf_pnchisq_x", 174),
  ("Rf_pnf_x", 175),
  ("Rf_pnorm_x", 176),
  ("Rf_pnt_x", 177),
  ("Rf_ppois_x", 178),
  ("Rf_protect_x", 179),
  ("Rf_psignrank_x", 180),
  ("Rf_pt_x", 181),
  ("Rf_ptukey_x", 182),
  ("Rf_punif_x", 183),
  ("Rf_pweibull_x", 184),
  ("Rf_pwilcox_x", 185),
  ("Rf_qbeta_x", 186),
  ("Rf_qbinom_x", 187),
  ("Rf_qcauchy_x", 188),
  ("Rf_qchisq_x", 189),
  ("Rf_qexp_x", 190),
  ("Rf_qf_x", 191),
  ("Rf_qgamma_x", 192),
  ("Rf_qgeom_x", 193),
  ("Rf_qhyper_x", 194),
  ("Rf_qlnorm_x", 195),
  ("Rf_qlogis_x", 196),
  ("Rf_qnbeta_x", 197),
  ("Rf_qnbinom_x", 198),
  ("Rf_qnbinom_mu_x", 199),
  ("Rf_qnchisq_x", 200),
  ("Rf_qnf_x", 201),
  ("Rf_qnorm_x", 202),
  ("Rf_qnt_x", 203),
  ("Rf_qpois_x", 204),
  ("Rf_qsignrank_x", 205),
  ("Rf_qt_x", 206),
  ("Rf_qtukey_x", 207),
  ("Rf_qunif_x", 208),
  ("Rf_qweibull_x", 209),
  ("Rf_qwilcox_x", 210),
  ("Rf_rbeta_x", 211),
  ("Rf_rbinom_x", 212),
  ("Rf_rcauchy_x", 213),
  ("Rf_rchisq_x", 214),
  ("Rf_rexp_x", 215),
  ("Rf_rf_x", 216),
  ("Rf_rgamma_x", 217),
  ("Rf_rgeom_x", 218),
  ("Rf_rhyper_x", 219),
  ("Rf_rlnorm_x", 220),
  ("Rf_rlogis_x", 221),
  ("Rf_rmultinom_x", 222),
  ("Rf_rnbinom_x", 223),
  ("Rf_rnbinom_mu_x", 224),
  ("Rf_rnchisq_x", 225),
  ("Rf_rnorm_x", 226),
  ("Rf_rpois_x", 227),
  ("Rf_rsignrank_x", 228),
  ("Rf_rt_x", 229),
  ("Rf_runif_x", 230),
  ("Rf_rweibull_x", 231),
  ("Rf_rwilcox_x", 232),
  ("Rf_setAttrib_x", 233),
  ("Rf_str2type_x", 234),
  ("Rf_unprotect_x", 235),
  ("Rf_unprotect_ptr_x", 236),
  ("Rf_warning_x", 237),
  ("Rf_warningcall_x", 238),
  ("Rprintf_x", 239),
  ("SETCAD4R_x", 240),
  ("SETCADDDR_x", 241),
  ("SETCADDR_x", 242),
  ("SETCADR_x", 243),
  ("SETCAR_x", 244),
  ("SETCDR_x", 245),
  ("SET_BODY_x", 246),
  ("SET_CLOENV_x", 247),
  ("SET_FORMALS_x", 248),
  ("SET_NAMED_FASTR_x", 249),
  ("SET_RDEBUG_x", 250),
  ("SET_RSTEP_x", 251),
  ("SET_S4_OBJECT_x", 252),
  ("SET_STRING_ELT_x", 253),
  ("SET_SYMVALUE_x", 254),
  ("SET_TAG_x", 255),
  ("SET_TYPEOF_FASTR_x", 256),
  ("SET_VECTOR_ELT_x", 257),
  ("STRING_ELT_x", 258),
  ("SYMVALUE_x", 259),
  ("TAG_x", 260),
  ("TYPEOF_x", 261),
  ("UNSET_S4_OBJECT_x", 262),
  ("VECTOR_ELT_x", 263),
  ("forceSymbols_x", 264),
  ("getCCallable_x", 265),
  ("getConnectionClassString_x", 266),
  ("getEmbeddingDLLInfo_x", 267),
  ("getOpenModeString_x", 268),
  ("getSummaryDescription_x", 269),
  ("isSeekable_x", 270),
  ("octsize_x", 271),
  ("registerCCallable_x", 272),
  ("registerRoutines_x", 273),
  ("restoreHandlerStacks_x", 274),
  ("setDotSymbolValues_x", 275),
  ("unif_rand_x", 276),
  ("useDynamicSymbols_x", 277)
]

/-- All `#define` lines of the header, in file order (lines 5-392). -/
def defines : List (String × Nat) := pass1 ++ midSection ++ pass3

/-- Line 394 of the header: `#define UPCALLS_TABLE_SIZE 278`. -/
def UPCALLS_TABLE_SIZE : Nat := 278

/-- Boolean test: the header contains a `#define n s` line. -/
def hasDef (n : String) (s : Nat) : Bool :=
  defines.any (fun p => p.1 == n && p.2 == s)

/-- All slot values the header assigns to a given name, in file order. -/
def slotsOf (n : String) : List Nat :=
  (defines.filter (fun p => p.1 == n)).map Prod.snd

/-- All names the header assigns a given slot value to, in file order. -/
def namesWithSlot (s : Nat) : List String :=
  (defines.filter (fun p => p.2 == s)).map Prod.fst

/-- The name-to-slot map obtained by C-preprocessor semantics, where a
textual redefinition silently replaces the earlier one: the last
`#define` of a name wins. -/
def lastWins (n : String) : Option Nat :=
  defines.foldl (fun acc p => if p.1 == n then some p.2 else acc) none

/-- Number of distinct strings in a list. -/
def distinctCount : List String → Nat
  | [] => 0
  | s :: ts => (if ts.contains s then 0 else 1) + distinctCount ts

/-- Number of distinct naturals in a list. -/
def distinctCountNat : List Nat → Nat
  | [] => 0
  | s :: ts => (if ts.contains s then 0 else 1) + distinctCountNat ts

/-- Injection of a name into a natural number by its character codes
(base 256; every character of the header's names is ASCII, hence < 256). -/
def encodeName (s : String) : Nat :=
  s.data.foldl (fun a c => a * 256 + c.toNat) 0

/-- Strict ASCII (code-point) order on character lists. -/
def asciiLt : List Char → List Char → Bool
  | [], [] => false
  | [], _ :: _ => true
  | _ :: _, [] => false
  | a :: as, b :: bs =>
    if a.toNat < b.toNat then true
    else if b.toNat < a.toNat then false
    else asciiLt as bs

/-- Strict ASCII order on names. -/
def nameLt (a b : String) : Bool := asciiLt a.data b.data

/-- The characters of a name with the generated `_x` suffix removed
(names lacking the suffix are kept whole). -/
def baseChars (s : String) : List Char :=
  if s.data.reverse.take 2 = ['x', '_'] then (s.data.reverse.drop 2).reverse
  else s.data

/-- Strict ASCII order on the `_x`-stripped base names. -/
def baseLt (a b : String) : Bool := asciiLt (baseChars a) (baseChars b)

/-- `chainB f l = true` iff every adjacent pair of `l` satisfies `f`. -/
def chainB (f : α → α → Bool) : List α → Bool
  | [] => true
  | [_] => true
  | a :: b :: rest => f a b && chainB f (b :: rest)

/-- Modelled from the spec: error taxonomy category (1),
`ConfigurationError` — duplicate/conflicting slot registration detected by
the generation step; fatal, aborts generation.  The registration logic
itself is not under `src/` (only its generated output is), so it is
modelled from the spec. -/
inductive ConfigurationError where
  | conflictingSlot (name : String) (oldSlot newSlot : Nat)

/-- Modelled from the spec: the Slot Registry — the authoritative mapping
from upcall name to stable slot, built by the offline generation step.
Entries are kept in registration order. -/
structure Registry where
  entries : List (String × Nat)

/-- The slot currently registered for a name, if any. -/
def Registry.slotFor (r : Registry) (n : String) : Option Nat :=
  r.entries.lookup n

/-- Modelled from the spec: `register` consumes one `(name, slot)`
declaration of the generation step.  It is idempotent per build — an
already registered name declared again with the same slot is accepted
unchanged — it appends a fresh name, and it rejects re-registration of an
existing name with a different declared slot as a hard generation-time
`ConfigurationError` instead of letting the last definition win. -/
def Registry.register (r : Registry) (n : String) (s : Nat) :
    Except ConfigurationError Registry :=
  match r.slotFor n with
  | some s0 =>
    if s0 = s then Except.ok r
    else Except.error (ConfigurationError.conflictingSlot n s0 s)
  | none => Except.ok ⟨r.entries ++ [(n, s)]⟩

/-- Modelled from the spec: the call-time result of one dispatch — a
marshaled return value or a tagged failure from the error taxonomy
(ABIViolation, MarshalingError, ManagedFailure). -/
inductive CallResult where
  | ok (result : List Nat)
  | abiViolation
  | marshalingError
  | managedFailure

/-- Modelled from the spec: an ImplementationEntry — a callable of the
managed runtime plus the signature descriptor (arity) used by the
marshaler; a managed-side failure of the callable is modelled as `none`. -/
structure ImplementationEntry where
  arity : Nat
  callable : Nat → List Nat → Option (List Nat)

/-- Modelled from the spec: the Implementation Table, one entry per slot,
sized by the registry. -/
structure ImplTable where
  entries : List ImplementationEntry

/-- The total slot count backing the table (the spec's `size()`). -/
def ImplTable.size (t : ImplTable) : Nat := t.entries.length

/-- Modelled from the spec: `invoke(slot, argBuffer, ctx)` — the Dispatch
Gateway.  It validates `slot` against table bounds before any other work
(an out-of-bounds slot yields `abiViolation`); in bounds, it checks the
argument buffer against the entry's signature (mismatch yields
`marshalingError`), invokes the callable, and converts a managed-side
failure into the tagged `managedFailure` result rather than letting it
escape across the boundary. -/
def invoke (t : ImplTable) (slot : Nat) (argBuffer : List Nat) (ctx : Nat) :
    CallResult :=
  match t.entries.get? slot with
  | none => CallResult.abiViolation
  | some e =>
    if argBuffer.length = e.arity then
      match e.callable ctx argBuffer with
      | some r => CallResult.ok r
      | none => CallResult.managedFailure
    else CallResult.marshalingError

end Upcalls

namespace Upcalls

/-! ## General lemmas -/

/-- Mapping a list through any function cannot increase the number of
distinct elements. -/
theorem distinctCountNat_map_le (f : String → Nat) (xs : List String) :
    distinctCountNat (xs.map f) ≤ distinctCount xs := by
  induction xs with
  | nil => exact Nat.le_refl 0
  | cons x ts ih =>
    simp only [List.map_cons, distinctCountNat, distinctCount]
    refine Nat.add_le_add ?_ ih
    by_cases h : ts.contains x = true
    · have hx : x ∈ ts := List.elem_iff.mp h
      have hc : (ts.map f).contains (f x) = true :=
        List.elem_iff.mpr (List.mem_map_of_mem f hx)
      rw [if_pos hc, if_pos h]
    · rw [if_neg h]
      by_cases h2 : (ts.map f).contains (f x) = true
      · rw [if_pos h2]
        exact Nat.zero_le 1
      · rw [if_neg h2]

/-! ## Claims -/

/-- C1: the claim states that every `#define` of one name in the single
generated header assigns it the same slot.  The header itself violates
this: `Rf_asChar_x` is defined with slot 103 (lines 108 and 200) and with
slot 102 (line 217).  This theorem evaluates the table at the failing
input, exhibiting the remap. -/
theorem C1_asChar_remapped_within_one_build :
    slotsOf "Rf_asChar_x" = [103, 103, 102] ∧ (102 : Nat) < 103 :=
  ⟨rfl, by decide⟩

/-- C2 counterexample: the number of distinct registered names (279) is
strictly greater than `UPCALLS_TABLE_SIZE` (278), so the claimed equality
fails.  The count is bounded from below through the injective character
encoding `encodeName`. -/
theorem C2_counterexample :
    UPCALLS_TABLE_SIZE < distinctCount (defines.map Prod.fst) := by
  have henc : distinctCountNat ((defines.map Prod.fst).map encodeName) = 279 := by rfl
  have hle := distinctCountNat_map_le encodeName (defines.map Prod.fst)
  rw [henc] at hle
  exact Nat.lt_of_lt_of_le (by decide) hle

/-- C2 amended: `UPCALLS_TABLE_SIZE` equals the number of distinct slot
values defined in the generated table (278), though not the number of
distinct names (279). -/
theorem C2_size_eq_distinct_slot_values :
    UPCALLS_TABLE_SIZE = distinctCountNat (defines.map Prod.snd) := by rfl

/-- C3: registering a name that already holds slot `s0` with a different
slot `s` fails with `ConfigurationError`; the registry is not updated, so
the conflict is never resolved by letting the last definition win. -/
theorem C3_register_conflict_fails (r : Registry) (n : String) (s0 s : Nat)
    (h : r.slotFor n = some s0) (hne : s0 ≠ s) :
    r.register n s = Except.error (ConfigurationError.conflictingSlot n s0 s) := by
  unfold Registry.register
  rw [h]
  simp [hne]

/-- C3 witness: a registry holding `Rf_asChar_x` at slot 103 rejects its
re-registration at slot 102 with the conflicting-slot error. -/
theorem C3_witness :
    (Registry.mk [("Rf_asChar_x", 103)]).register "Rf_asChar_x" 102 =
      Except.error (ConfigurationError.conflictingSlot "Rf_asChar_x" 103 102) :=
  C3_register_conflict_fails (Registry.mk [("Rf_asChar_x", 103)]) "Rf_asChar_x" 103 102
    rfl (by decide)

/-- C4 counterexample: the claim's specific example fails — the names
holding slot 102 are `Rf_any_duplicated3_x` and `Rf_asChar_x`, and neither
of them is ever assigned slot 186 (that slot belongs to `isSeekable_x` and
`Rf_qbeta_x` only), so no single name is assigned both 102 and 186. -/
theorem C4_counterexample :
    namesWithSlot 102 = ["Rf_any_duplicated3_x", "Rf_any_duplicated3_x", "Rf_asChar_x"] ∧
    (namesWithSlot 102).all (fun n => !(hasDef n 186)) = true ∧
    namesWithSlot 186 = ["isSeekable_x", "isSeekable_x", "Rf_qbeta_x"] :=
  ⟨rfl, rfl, rfl⟩

/-- C4 amended: the header does re-declare a name across generation passes
with two different slot values — `isSeekable_x` is assigned slot 186 in
the first pass and slot 270 in the last pass. -/
theorem C4_redeclared_with_conflicting_slots :
    ("isSeekable_x", 186) ∈ pass1 ∧ ("isSeekable_x", 270) ∈ pass3 ∧ (186 : Nat) < 270 :=
  ⟨by decide, by decide, by decide⟩

/-- C5: the defined slot values form a contiguous gap-free range — every
integer in `[0, UPCALLS_TABLE_SIZE)` is assigned to at least one name, and
every defined slot value lies below `UPCALLS_TABLE_SIZE`. -/
theorem C5_slots_contiguous_gap_free :
    (∀ k, k < UPCALLS_TABLE_SIZE → ∃ p ∈ defines, p.2 = k) ∧
    (∀ p ∈ defines, p.2 < UPCALLS_TABLE_SIZE) :=
  ⟨by decide, by decide⟩

/-- C5 witness: slot 0 is assigned to some name, and the concrete define
`("ATTRIB_x", 0)` has its slot below the table size. -/
theorem C5_witness :
    (∃ p ∈ defines, p.2 = 0) ∧ (("ATTRIB_x", 0) : String × Nat).2 < UPCALLS_TABLE_SIZE :=
  ⟨C5_slots_contiguous_gap_free.1 0 (by decide),
   C5_slots_contiguous_gap_free.2 ("ATTRIB_x", 0) (by decide)⟩

/-- C6: the claim states that a constant present in an earlier pass keeps
its slot in any later pass (append-only stability).  The header violates
this: `useDynamicSymbols_x` has slot 193 in the first pass and slot 277 in
the last pass.  This theorem evaluates the table at the failing input. -/
theorem C6_useDynamicSymbols_renumbered :
    ("useDynamicSymbols_x", 193) ∈ pass1 ∧ ("useDynamicSymbols_x", 277) ∈ pass3 ∧
    (193 : Nat) < 277 :=
  ⟨by decide, by decide, by decide⟩

/-- C7: for every slot at or beyond the table size and every argument
buffer and context, `invoke` returns `abiViolation`; bounds are validated
before any other work, and `invoke` is a pure function, so repeated calls
behave identically. -/
theorem C7_oob_slot_yields_abiViolation (t : ImplTable) (slot : Nat)
    (argBuffer : List Nat) (ctx : Nat) (h : t.size ≤ slot) :
    invoke t slot argBuffer ctx = CallResult.abiViolation := by
  unfold invoke
  have hnone : t.entries.get? slot = none := List.get?_eq_none.mpr h
  rw [hnone]

/-- C7 witness: dispatching slot 5 against an empty table returns the
ABI-violation result. -/
theorem C7_witness :
    invoke (ImplTable.mk []) 5 [1, 2] 0 = CallResult.abiViolation :=
  C7_oob_slot_yields_abiViolation (ImplTable.mk []) 5 [1, 2] 0 (by decide)

/-- C8: under C-preprocessor last-definition-wins semantics, the final
name-to-slot mapping of the header is not injective — the two distinct
names `Rf_any_duplicated3_x` and `Rf_asChar_x` both resolve to slot 102. -/
theorem C8_last_wins_not_injective :
    lastWins "Rf_any_duplicated3_x" = some 102 ∧ lastWins "Rf_asChar_x" = some 102 ∧
    ("Rf_any_duplicated3_x" == "Rf_asChar_x") = false :=
  ⟨rfl, rfl, rfl⟩

/-- C9 counterexample: the first generation pass is not in strictly
increasing ASCII order — at indices 47 and 48 it lists `R_Home_x` before
`R_HomeDir_x`, although `R_HomeDir_x` is ASCII-smaller (`D` < `_`). -/
theorem C9_counterexample :
    chainB nameLt (pass1.map Prod.fst) = false ∧
    pass1.get? 47 = some ("R_Home_x", 47) ∧
    pass1.get? 48 = some ("R_HomeDir_x", 48) ∧
    nameLt "R_HomeDir_x" "R_Home_x" = true :=
  ⟨rfl, rfl, rfl, rfl⟩

/-- C9 amended: within each pass the names with the generated `_x` suffix
stripped are in strictly increasing ASCII order, and the slot values are
consecutive — 0..193 in the first pass and 102..277 in the last pass. -/
theorem C9_base_sorted_slots_consecutive :
    chainB baseLt (pass1.map Prod.fst) = true ∧
    pass1.map Prod.snd = List.range' 0 194 ∧
    chainB baseLt (pass3.map Prod.fst) = true ∧
    pass3.map Prod.snd = List.range' 102 176 :=
  ⟨rfl, rfl, rfl, rfl⟩

/-- C10: `UPCALLS_TABLE_SIZE` equals one plus the maximum slot value
defined anywhere in the table (278 = 277 + 1), and every defined slot
value is strictly below it. -/
theorem C10_size_is_max_slot_plus_one :
    (defines.map Prod.snd).foldl max 0 + 1 = UPCALLS_TABLE_SIZE ∧
    (∀ p ∈ defines, p.2 < UPCALLS_TABLE_SIZE) :=
  ⟨rfl, by decide⟩

/-- C10 witness: the concrete define `("useDynamicSymbols_x", 277)` holds
the maximum slot and lies below the table size. -/
theorem C10_witness :
    (("useDynamicSymbols_x", 277) : String × Nat).2 < UPCALLS_TABLE_SIZE :=
  C10_size_is_max_slot_plus_one.2 ("useDynamicSymbols_x", 277) (by decide)

end Upcalls
